import Mathlib

/-!
Verification of the csv_reader payment-engine core: the `Account` balance
state machine (src/model/account.rs), the transaction data model
(src/model/transaction.rs), the in-memory storage (src/adapter/account_storage.rs)
and the order-processing orchestrator (src/service/account_manager.rs).

Monetary amounts use exact decimal arithmetic in the source (rust_decimal);
the engine only ever adds, subtracts, compares and tests equality on them —
never multiplies, divides or rounds — so amounts are embedded as `Int`
(amounts counted in minor units), which is exact for exactly those
operations and keeps every definition kernel-executable.

Rust methods mutating `&mut self` with fallible early returns are embedded as
pure functions returning the post-state paired with an optional error: every
error path in the source returns before any field assignment, so the post-state
on an error is the unchanged receiver.
-/

namespace CsvReader

/-- The client ID type alias (`u16` in the source). -/
abbrev ClientId := Nat

/-- The transaction ID type alias (`u32` in the source). -/
abbrev TxId := Nat

/-- The error type for account operations (`AccountError` in account.rs). -/
inductive AccountError where
  | InsufficientAvailableFunds (available requested : Int)
  | InsufficientHeldFunds (held requested : Int)
  | AccountLocked
deriving DecidableEq, Repr

/-- The state of a client account (`Account` in account.rs). -/
structure Account where
  client_id : ClientId
  available : Int
  held : Int
  total : Int
  locked : Bool
deriving DecidableEq, Repr

/-- `Account::new`: zero funds, unlocked. -/
def Account.new (client_id : ClientId) : Account :=
  { client_id := client_id, available := 0, held := 0, total := 0, locked := false }

/-- `Account::update_total`: recompute `total` from `available` and `held`. -/
def Account.update_total (a : Account) : Account :=
  { a with total := a.available + a.held }

/-- `Account::deposit`: fails if locked, else adds to available and recomputes total. -/
def Account.deposit (a : Account) (amount : Int) : Account × Option AccountError :=
  if a.locked then (a, some AccountError.AccountLocked)
  else (Account.update_total { a with available := a.available + amount }, none)

/-- `Account::withdraw`: fails if locked or if available is below the requested
amount, else subtracts from available and recomputes total. -/
def Account.withdraw (a : Account) (amount : Int) : Account × Option AccountError :=
  if a.locked then (a, some AccountError.AccountLocked)
  else if a.available < amount then
    (a, some (AccountError.InsufficientAvailableFunds a.available amount))
  else (Account.update_total { a with available := a.available - amount }, none)

/-- `Account::dispute`: unconditional move of funds from available to held. -/
def Account.dispute (a : Account) (amount : Int) : Account × Option AccountError :=
  (Account.update_total { a with available := a.available - amount, held := a.held + amount },
    none)

/-- `Account::resolve`: fails if the requested amount exceeds held, else moves
funds back from held to available. -/
def Account.resolve (a : Account) (amount : Int) : Account × Option AccountError :=
  if a.held < amount then (a, some (AccountError.InsufficientHeldFunds a.held amount))
  else (Account.update_total { a with available := a.available + amount, held := a.held - amount },
    none)

/-- `Account::chargeback`: fails if the requested amount exceeds held, else
removes the funds from held and locks the account. -/
def Account.chargeback (a : Account) (amount : Int) : Account × Option AccountError :=
  if a.held < amount then (a, some (AccountError.InsufficientHeldFunds a.held amount))
  else (Account.update_total { a with held := a.held - amount, locked := true }, none)

/-- The kind of a transaction (`TransactionKind` in transaction.rs). -/
inductive TransactionKind where
  | Deposit (amount : Int)
  | Withdrawal (amount : Int)
  | Dispute (tx_id : TxId)
  | Resolve (tx_id : TxId)
  | ChargeBack (tx_id : TxId)
deriving DecidableEq, Repr

/-- An accepted, stored transaction (`Transaction` in transaction.rs). -/
structure Transaction where
  tx_id : TxId
  client_id : ClientId
  kind : TransactionKind
deriving DecidableEq, Repr

/-- A not-yet-validated order (`TransactionOrder` in transaction.rs). -/
structure TransactionOrder where
  tx_id : TxId
  client_id : ClientId
  kind : TransactionKind
deriving DecidableEq, Repr

/-- `impl From<TransactionOrder> for Transaction`: identity on the fields. -/
def TransactionOrder.toTransaction (o : TransactionOrder) : Transaction :=
  { tx_id := o.tx_id, client_id := o.client_id, kind := o.kind }

/-- Transaction-related errors of the manager (`TransactionError` in account_manager.rs). -/
inductive TransactionError where
  | DuplicateTransactionId (tx_id : TxId)
  | RelatedTransactionNotFound (tx_id : TxId)
  | NonDisputedTransaction (tx_id : TxId)
  | AlreadyDisputedTransaction (tx_id : TxId)
  | RelatedTransactionNotDisputable (tx_id : TxId)
deriving DecidableEq, Repr

/-- An error escaping `process_order`: a propagated account error, a typed
order error, an untyped storage error (the `anyhow!` string errors of the
in-memory storage), or a panic of one of the `unwrap()` calls. -/
inductive ProcessError where
  | account (e : AccountError)
  | order (e : TransactionError)
  | storageFailure (msg : String)
  | unwrapFailure (msg : String)
deriving DecidableEq, Repr

instance {ε α : Type} [DecidableEq ε] [DecidableEq α] : DecidableEq (Except ε α) := fun x y =>
  match x, y with
  | Except.ok a, Except.ok b =>
    if h : a = b then isTrue (by rw [h]) else isFalse (by simp [h])
  | Except.error a, Except.error b =>
    if h : a = b then isTrue (by rw [h]) else isFalse (by simp [h])
  | Except.ok _, Except.error _ => isFalse (by simp)
  | Except.error _, Except.ok _ => isFalse (by simp)

/-- The state of `InMemoryAccountStorage` (account_storage.rs): accounts keyed
by client id, transactions keyed by transaction id, and the disputed set.
`HashMap`/`HashSet` are embedded as lookup functions, which carries the same
at-most-one-binding-per-key semantics. -/
structure Storage where
  accounts : ClientId → Option Account
  transactions : TxId → Option Transaction
  disputed : TxId → Bool

/-- `InMemoryAccountStorage::default()`: all maps empty. -/
def Storage.empty : Storage :=
  { accounts := fun _ => none, transactions := fun _ => none, disputed := fun _ => false }

/-- `get_account`: point read, absent gives `none`. -/
def Storage.get_account (s : Storage) (client_id : ClientId) : Option Account :=
  s.accounts client_id

/-- `get_transaction`: point read, absent gives `none`. -/
def Storage.get_transaction (s : Storage) (tx_id : TxId) : Option Transaction :=
  s.transactions tx_id

/-- `is_disputed`: `none` when the transaction does not exist, else whether the
id is in the disputed set. -/
def Storage.is_disputed (s : Storage) (tx_id : TxId) : Option Bool :=
  (s.transactions tx_id).map (fun _ => s.disputed tx_id)

/-- `store_account`: upsert keyed by the account's own client id. -/
def Storage.store_account (s : Storage) (a : Account) : Storage :=
  { s with accounts := fun c => if c = a.client_id then some a else s.accounts c }

/-- `store_transaction`: fails when the transaction id is already present,
else inserts the transaction under its id. -/
def Storage.store_transaction (s : Storage) (t : Transaction) : Except String Storage :=
  if (s.transactions t.tx_id).isSome then
    Except.error "Transaction already exists"
  else
    Except.ok { s with
      transactions := fun i => if i = t.tx_id then some t else s.transactions i }

/-- `set_disputed`: fails when the transaction does not exist, else adds the id
to or removes it from the disputed set. -/
def Storage.set_disputed (s : Storage) (tx_id : TxId) (d : Bool) : Except String Storage :=
  if (s.transactions tx_id).isSome then
    Except.ok { s with disputed := fun i => if i = tx_id then d else s.disputed i }
  else
    Except.error "Transaction does not exist"

/-- `AccountManager::process_deposit`: reject a duplicate transaction id early,
else fetch-or-create the client's account, apply the deposit, persist the
account, then persist the transaction record. -/
def process_deposit (s : Storage) (t : Transaction) (amount : Int) :
    Storage × Except ProcessError Transaction :=
  if (s.get_transaction t.tx_id).isSome then
    (s, Except.error (ProcessError.order (TransactionError.DuplicateTransactionId t.tx_id)))
  else
    let account := (s.get_account t.client_id).getD (Account.new t.client_id)
    match Account.deposit account amount with
    | (_, some e) => (s, Except.error (ProcessError.account e))
    | (account, none) =>
      let s1 := s.store_account account
      match s1.store_transaction t with
      | Except.error msg => (s1, Except.error (ProcessError.storageFailure msg))
      | Except.ok s2 => (s2, Except.ok t)

/-- `AccountManager::process_withdrawal`: same shape as `process_deposit` with
`Account.withdraw` as the applied operation. -/
def process_withdrawal (s : Storage) (t : Transaction) (amount : Int) :
    Storage × Except ProcessError Transaction :=
  if (s.get_transaction t.tx_id).isSome then
    (s, Except.error (ProcessError.order (TransactionError.DuplicateTransactionId t.tx_id)))
  else
    let account := (s.get_account t.client_id).getD (Account.new t.client_id)
    match Account.withdraw account amount with
    | (_, some e) => (s, Except.error (ProcessError.account e))
    | (account, none) =>
      let s1 := s.store_account account
      match s1.store_transaction t with
      | Except.error msg => (s1, Except.error (ProcessError.storageFailure msg))
      | Except.ok s2 => (s2, Except.ok t)

/-- `AccountManager::process_dispute`: reject when already disputed; else look
up the related transaction (absent is an error, non-Deposit kind is an error);
on a Deposit apply `Account.dispute` to the related transaction's client
account, persist it and mark the id disputed. The `unwrap()` on the account
lookup is embedded as an `unwrapFailure` outcome. -/
def process_dispute (s : Storage) (t : Transaction) (related : TxId) :
    Storage × Except ProcessError Transaction :=
  if s.disputed related then
    (s, Except.error (ProcessError.order (TransactionError.AlreadyDisputedTransaction related)))
  else
    match s.get_transaction related with
    | some rt =>
      match rt.kind with
      | TransactionKind.Deposit amount =>
        match s.get_account rt.client_id with
        | some account =>
          match Account.dispute account amount with
          | (_, some e) => (s, Except.error (ProcessError.account e))
          | (account, none) =>
            let s1 := s.store_account account
            match s1.set_disputed related true with
            | Except.error msg => (s1, Except.error (ProcessError.storageFailure msg))
            | Except.ok s2 => (s2, Except.ok t)
        | none => (s, Except.error (ProcessError.unwrapFailure "account not found"))
      | _ =>
        (s, Except.error (ProcessError.order
          (TransactionError.RelatedTransactionNotDisputable related)))
    | none =>
      (s, Except.error (ProcessError.order (TransactionError.RelatedTransactionNotFound related)))

/-- `AccountManager::process_resolve`: reject when the related id is not
disputed; else look up the related transaction and, when it is a Deposit,
apply `Account.resolve`, persist, clear the disputed flag; a disputed
non-Deposit falls through silently with a success result. The `unwrap()`
calls are embedded as `unwrapFailure` outcomes. -/
def process_resolve (s : Storage) (t : Transaction) (related : TxId) :
    Storage × Except ProcessError Transaction :=
  if s.disputed related then
    match s.get_transaction related with
    | none => (s, Except.error (ProcessError.unwrapFailure "transaction not found"))
    | some rt =>
      match rt.kind with
      | TransactionKind.Deposit amount =>
        match s.get_account rt.client_id with
        | none => (s, Except.error (ProcessError.unwrapFailure "account not found"))
        | some account =>
          match Account.resolve account amount with
          | (_, some e) => (s, Except.error (ProcessError.account e))
          | (account, none) =>
            let s1 := s.store_account account
            match s1.set_disputed related false with
            | Except.error msg => (s1, Except.error (ProcessError.storageFailure msg))
            | Except.ok s2 => (s2, Except.ok t)
      | _ => (s, Except.ok t)
  else
    (s, Except.error (ProcessError.order (TransactionError.NonDisputedTransaction related)))

/-- `AccountManager::process_chargeback`: same shape as `process_resolve` with
`Account.chargeback` as the applied operation. -/
def process_chargeback (s : Storage) (t : Transaction) (related : TxId) :
    Storage × Except ProcessError Transaction :=
  if s.disputed related then
    match s.get_transaction related with
    | none => (s, Except.error (ProcessError.unwrapFailure "transaction not found"))
    | some rt =>
      match rt.kind with
      | TransactionKind.Deposit amount =>
        match s.get_account rt.client_id with
        | none => (s, Except.error (ProcessError.unwrapFailure "account not found"))
        | some account =>
          match Account.chargeback account amount with
          | (_, some e) => (s, Except.error (ProcessError.account e))
          | (account, none) =>
            let s1 := s.store_account account
            match s1.set_disputed related false with
            | Except.error msg => (s1, Except.error (ProcessError.storageFailure msg))
            | Except.ok s2 => (s2, Except.ok t)
      | _ => (s, Except.ok t)
  else
    (s, Except.error (ProcessError.order (TransactionError.NonDisputedTransaction related)))

/-- `AccountManager::process_order`: turn the order into a transaction and
dispatch on its kind. -/
def process_order (s : Storage) (o : TransactionOrder) :
    Storage × Except ProcessError Transaction :=
  let t := o.toTransaction
  match t.kind with
  | TransactionKind.Deposit amount => process_deposit s t amount
  | TransactionKind.Withdrawal amount => process_withdrawal s t amount
  | TransactionKind.Dispute tx_id => process_dispute s t tx_id
  | TransactionKind.Resolve tx_id => process_resolve s t tx_id
  | TransactionKind.ChargeBack tx_id => process_chargeback s t tx_id

/-- The field equation `total == available + held` of the spec. -/
def Account.balanced (a : Account) : Prop :=
  a.total = a.available + a.held

instance : DecidablePred Account.balanced := fun a =>
  inferInstanceAs (Decidable (a.total = a.available + a.held))

/-- One account-level operation, for stating properties of arbitrary
sequences of `Account` calls. -/
inductive AccountOp where
  | deposit (amount : Int)
  | withdraw (amount : Int)
  | dispute (amount : Int)
  | resolve (amount : Int)
  | chargeback (amount : Int)
deriving DecidableEq, Repr

/-- Apply one operation to an account, keeping the post-state whether the
call succeeded or failed (as the Rust `&mut self` receiver does). -/
def Account.applyOp (a : Account) (op : AccountOp) : Account :=
  match op with
  | AccountOp.deposit amount => (a.deposit amount).1
  | AccountOp.withdraw amount => (a.withdraw amount).1
  | AccountOp.dispute amount => (a.dispute amount).1
  | AccountOp.resolve amount => (a.resolve amount).1
  | AccountOp.chargeback amount => (a.chargeback amount).1

/-- Apply a sequence of operations to an account. -/
def Account.applyOps (a : Account) (ops : List AccountOp) : Account :=
  ops.foldl Account.applyOp a

/-- Reachable-state invariant of the manager's storage: every disputed id has
a stored Deposit-kind transaction, every stored transaction's client has a
stored account, and stored accounts carry their own key as client id. -/
def StorageInv (s : Storage) : Prop :=
  (∀ tid, s.disputed tid = true →
    ∃ t amount, s.get_transaction tid = some t ∧ t.kind = TransactionKind.Deposit amount)
  ∧ (∀ tid t, s.get_transaction tid = some t → (s.get_account t.client_id).isSome = true)
  ∧ (∀ c a, s.get_account c = some a → a.client_id = c)

/-- Scenario F of the spec: Deposit tx=1 client=1 amount=100, Withdrawal
tx=2 client=1 amount=30, Dispute of tx 1. -/
def scenarioF_state : Storage :=
  (process_order (process_order (process_order Storage.empty
    ⟨1, 1, TransactionKind.Deposit 100⟩).1
    ⟨2, 1, TransactionKind.Withdrawal 30⟩).1
    ⟨3, 1, TransactionKind.Dispute 1⟩).1

/-- Scenario D of the spec: Deposit tx=1 client=1 amount=100, Dispute of tx 1,
ChargeBack of tx 1. -/
def scenarioD_state : Storage :=
  (process_order (process_order (process_order Storage.empty
    ⟨1, 1, TransactionKind.Deposit 100⟩).1
    ⟨2, 1, TransactionKind.Dispute 1⟩).1
    ⟨3, 1, TransactionKind.ChargeBack 1⟩).1

/-- The storage after one accepted deposit: tx 1, client 1, amount 100. -/
def oneDepositState : Storage :=
  (process_order Storage.empty ⟨1, 1, TransactionKind.Deposit 100⟩).1

theorem Account.update_total_client_id (a : Account) :
    (Account.update_total a).client_id = a.client_id := rfl

theorem Account.applyOp_client_id (a : Account) (op : AccountOp) :
    (a.applyOp op).client_id = a.client_id := by
  cases op <;>
    simp only [Account.applyOp, Account.deposit, Account.withdraw, Account.dispute,
      Account.resolve, Account.chargeback] <;>
    (repeat' split) <;> rfl

theorem Account.applyOp_locked_mono (a : Account) (op : AccountOp)
    (h : a.locked = true) : (a.applyOp op).locked = true := by
  cases op <;>
    simp only [Account.applyOp, Account.deposit, Account.withdraw, Account.dispute,
      Account.resolve, Account.chargeback, Account.update_total] <;>
    (repeat' split) <;> simp_all

/-- Claim C1: for every Account value reachable through the public operations
(new, deposit, withdraw, dispute, resolve, chargeback), after every call —
whether it succeeds or fails — the field equation `total == available + held`
holds: `new` establishes it and each operation's post-state (the unchanged
account on failure, the updated one on success) preserves it. -/
theorem account_total_invariant (a : Account) (cid : ClientId) (amount : Int)
    (h : a.balanced) :
    (Account.new cid).balanced
    ∧ ((a.deposit amount).1).balanced
    ∧ ((a.withdraw amount).1).balanced
    ∧ ((a.dispute amount).1).balanced
    ∧ ((a.resolve amount).1).balanced
    ∧ ((a.chargeback amount).1).balanced := by
  unfold Account.balanced at h ⊢
  refine ⟨rfl, ?_, ?_, ?_, ?_, ?_⟩ <;>
    simp only [Account.deposit, Account.withdraw, Account.dispute, Account.resolve,
      Account.chargeback, Account.update_total] <;>
    (repeat' split) <;> simp_all

theorem account_total_invariant_witness :
    (Account.new 2).balanced
    ∧ (((Account.new 1).deposit 5).1).balanced
    ∧ (((Account.new 1).withdraw 5).1).balanced
    ∧ (((Account.new 1).dispute 5).1).balanced
    ∧ (((Account.new 1).resolve 5).1).balanced
    ∧ (((Account.new 1).chargeback 5).1).balanced :=
  account_total_invariant (Account.new 1) 2 5 (by decide)

/-- Claim C3: a withdraw call rejected with InsufficientAvailableFunds or
AccountLocked, and a resolve or chargeback call rejected with
InsufficientHeldFunds, leave every field of the account exactly as before
the call (the post-state equals the receiver whenever an error is
reported). -/
theorem rejected_calls_no_mutation (a : Account) (amount : Int) :
    ((a.withdraw amount).2.isSome = true → (a.withdraw amount).1 = a)
    ∧ ((a.resolve amount).2.isSome = true → (a.resolve amount).1 = a)
    ∧ ((a.chargeback amount).2.isSome = true → (a.chargeback amount).1 = a) := by
  refine ⟨?_, ?_, ?_⟩ <;>
    simp only [Account.withdraw, Account.resolve, Account.chargeback,
      Account.update_total] <;>
    (repeat' split) <;> simp

theorem rejected_calls_no_mutation_witness :
    (((Account.new 1).withdraw 5).2.isSome = true → ((Account.new 1).withdraw 5).1 = Account.new 1)
    ∧ (((Account.new 1).resolve 5).2.isSome = true → ((Account.new 1).resolve 5).1 = Account.new 1)
    ∧ (((Account.new 1).chargeback 5).2.isSome = true →
        ((Account.new 1).chargeback 5).1 = Account.new 1) :=
  rejected_calls_no_mutation (Account.new 1) 5

/-- Claim C5: `Account.dispute` never fails, even on a locked account: it
subtracts the amount from available (which may become negative), adds it to
held, leaves total and locked unchanged; and the end-to-end Scenario F
(Deposit 100, Withdrawal 30, Dispute of 100) yields available = -30,
held = 100, total = 70. -/
theorem dispute_unconditional (a : Account) (amount : Int) (h : a.balanced) :
    (a.dispute amount).2 = none
    ∧ ((a.dispute amount).1).available = a.available - amount
    ∧ ((a.dispute amount).1).held = a.held + amount
    ∧ ((a.dispute amount).1).total = a.total
    ∧ ((a.dispute amount).1).locked = a.locked
    ∧ scenarioF_state.get_account 1 =
        some { client_id := 1, available := -30, held := 100, total := 70, locked := false } := by
  unfold Account.balanced at h
  refine ⟨rfl, rfl, rfl, ?_, rfl, by decide⟩
  simp only [Account.dispute, Account.update_total, h]
  ring

theorem dispute_unconditional_witness :
    (((Account.new 1).dispute 7).2 = none
    ∧ (((Account.new 1).dispute 7).1).available = (Account.new 1).available - 7
    ∧ (((Account.new 1).dispute 7).1).held = (Account.new 1).held + 7
    ∧ (((Account.new 1).dispute 7).1).total = (Account.new 1).total
    ∧ (((Account.new 1).dispute 7).1).locked = (Account.new 1).locked
    ∧ scenarioF_state.get_account 1 =
        some { client_id := 1, available := -30, held := 100, total := 70, locked := false }) :=
  dispute_unconditional (Account.new 1) 7 (by decide)

/-- Claim C6: `Account.chargeback` with amount ≤ held subtracts the amount
from held, sets locked, and decreases total by the amount; and the
end-to-end Scenario D (Deposit 100, Dispute, ChargeBack) yields
available = 0, held = 0, total = 0, locked = true, after which a Deposit
order for that client fails with AccountLocked. -/
theorem chargeback_success (a : Account) (amount : Int)
    (hle : amount ≤ a.held) (h : a.balanced) :
    (a.chargeback amount).2 = none
    ∧ ((a.chargeback amount).1).held = a.held - amount
    ∧ ((a.chargeback amount).1).locked = true
    ∧ ((a.chargeback amount).1).total = a.total - amount
    ∧ scenarioD_state.get_account 1 =
        some { client_id := 1, available := 0, held := 0, total := 0, locked := true }
    ∧ (process_order scenarioD_state ⟨4, 1, TransactionKind.Deposit 10⟩).2 =
        Except.error (ProcessError.account AccountError.AccountLocked) := by
  have hnot : ¬ a.held < amount := not_lt.mpr hle
  unfold Account.balanced at h
  refine ⟨?_, ?_, ?_, ?_, by decide, by decide⟩ <;>
    simp only [Account.chargeback, Account.update_total, hnot, if_false] <;>
    simp [h]
  ring

theorem chargeback_success_witness :
    (((Account.mk 1 0 9 9 false).chargeback 4).2 = none
    ∧ (((Account.mk 1 0 9 9 false).chargeback 4).1).held = (Account.mk 1 0 9 9 false).held - 4
    ∧ (((Account.mk 1 0 9 9 false).chargeback 4).1).locked = true
    ∧ (((Account.mk 1 0 9 9 false).chargeback 4).1).total = (Account.mk 1 0 9 9 false).total - 4
    ∧ scenarioD_state.get_account 1 =
        some { client_id := 1, available := 0, held := 0, total := 0, locked := true }
    ∧ (process_order scenarioD_state ⟨4, 1, TransactionKind.Deposit 10⟩).2 =
        Except.error (ProcessError.account AccountError.AccountLocked)) :=
  chargeback_success (Account.mk 1 0 9 9 false) 4 (by decide) (by decide)

/-- Claim C8: `locked` is monotonic: for every sequence of Account
operations (deposit, withdraw, dispute, resolve, chargeback), once locked
is true no operation ever sets it back to false. -/
theorem locked_monotonic (a : Account) (ops : List AccountOp)
    (h : a.locked = true) : (a.applyOps ops).locked = true := by
  induction ops generalizing a with
  | nil => exact h
  | cons op ops ih =>
    exact ih (a.applyOp op) (Account.applyOp_locked_mono a op h)

theorem Account.deposit_fst_client_id (a : Account) (amount : Int) :
    ((a.deposit amount).1).client_id = a.client_id :=
  Account.applyOp_client_id a (AccountOp.deposit amount)

theorem Account.withdraw_fst_client_id (a : Account) (amount : Int) :
    ((a.withdraw amount).1).client_id = a.client_id :=
  Account.applyOp_client_id a (AccountOp.withdraw amount)

theorem Account.dispute_fst_client_id (a : Account) (amount : Int) :
    ((a.dispute amount).1).client_id = a.client_id :=
  Account.applyOp_client_id a (AccountOp.dispute amount)

theorem Account.resolve_fst_client_id (a : Account) (amount : Int) :
    ((a.resolve amount).1).client_id = a.client_id :=
  Account.applyOp_client_id a (AccountOp.resolve amount)

theorem Account.chargeback_fst_client_id (a : Account) (amount : Int) :
    ((a.chargeback amount).1).client_id = a.client_id :=
  Account.applyOp_client_id a (AccountOp.chargeback amount)

theorem Storage.store_account_get_account (s : Storage) (a : Account) (c : ClientId) :
    (s.store_account a).get_account c = if c = a.client_id then some a else s.get_account c :=
  rfl

theorem Storage.store_transaction_ok (s s2 : Storage) (t : Transaction)
    (h : s.store_transaction t = Except.ok s2) :
    s.get_transaction t.tx_id = none
    ∧ s2.accounts = s.accounts
    ∧ s2.disputed = s.disputed
    ∧ (∀ i, s2.get_transaction i = if i = t.tx_id then some t else s.get_transaction i) := by
  unfold Storage.store_transaction at h
  split at h
  · exact absurd h (by simp)
  · next hns =>
    cases h
    exact ⟨Option.not_isSome_iff_eq_none.mp hns, rfl, rfl, fun i => rfl⟩

theorem Storage.set_disputed_of_isSome (s : Storage) (i : TxId) (d : Bool)
    (h : (s.get_transaction i).isSome = true) :
    s.set_disputed i d =
      Except.ok { s with disputed := fun j => if j = i then d else s.disputed j } := by
  unfold Storage.set_disputed
  simp only [Storage.get_transaction] at h
  simp [h]

theorem locked_monotonic_witness :
    ((Account.mk 1 5 0 5 true).applyOps
      [AccountOp.deposit 3, AccountOp.withdraw 1, AccountOp.dispute 2,
        AccountOp.resolve 1, AccountOp.chargeback 1]).locked = true :=
  locked_monotonic (Account.mk 1 5 0 5 true)
    [AccountOp.deposit 3, AccountOp.withdraw 1, AccountOp.dispute 2,
      AccountOp.resolve 1, AccountOp.chargeback 1] (by decide)

/-- Claim C2: a Deposit or Withdrawal order whose tx_id is already stored is
rejected by process_order with DuplicateTransactionId, leaving every stored
account (indeed the whole state) unchanged; and at the storage level a
second store_transaction with an already-present tx_id always fails. -/
theorem duplicate_tx_id_rejected (s : Storage) (o : TransactionOrder) (amount : Int)
    (t : Transaction)
    (ho : (s.get_transaction o.tx_id).isSome = true)
    (hk : o.kind = TransactionKind.Deposit amount ∨ o.kind = TransactionKind.Withdrawal amount)
    (ht : (s.get_transaction t.tx_id).isSome = true) :
    process_order s o =
      (s, Except.error (ProcessError.order (TransactionError.DuplicateTransactionId o.tx_id)))
    ∧ (∀ c, (process_order s o).1.get_account c = s.get_account c)
    ∧ s.store_transaction t = Except.error "Transaction already exists" := by
  have hmain : process_order s o =
      (s, Except.error (ProcessError.order (TransactionError.DuplicateTransactionId o.tx_id))) := by
    rcases hk with hk | hk <;>
      simp [process_order, TransactionOrder.toTransaction, process_deposit,
        process_withdrawal, hk, ho]
  refine ⟨hmain, fun c => by rw [hmain], ?_⟩
  simp only [Storage.get_transaction] at ht
  simp [Storage.store_transaction, ht]

theorem duplicate_tx_id_rejected_witness :
    (process_order (process_order Storage.empty ⟨1, 1, TransactionKind.Deposit 100⟩).1
        ⟨1, 2, TransactionKind.Withdrawal 5⟩ =
      ((process_order Storage.empty ⟨1, 1, TransactionKind.Deposit 100⟩).1,
        Except.error (ProcessError.order (TransactionError.DuplicateTransactionId 1)))
    ∧ (∀ c, (process_order (process_order Storage.empty ⟨1, 1, TransactionKind.Deposit 100⟩).1
        ⟨1, 2, TransactionKind.Withdrawal 5⟩).1.get_account c =
        (process_order Storage.empty ⟨1, 1, TransactionKind.Deposit 100⟩).1.get_account c)
    ∧ (process_order Storage.empty ⟨1, 1, TransactionKind.Deposit 100⟩).1.store_transaction
        ⟨1, 3, TransactionKind.Deposit 7⟩ = Except.error "Transaction already exists") :=
  duplicate_tx_id_rejected (process_order Storage.empty ⟨1, 1, TransactionKind.Deposit 100⟩).1
    ⟨1, 2, TransactionKind.Withdrawal 5⟩ 5 ⟨1, 3, TransactionKind.Deposit 7⟩
    (by decide) (Or.inr rfl) (by decide)

/-- Claim C9 (amended): when process_order accepts a Deposit or Withdrawal
order (returns a stored transaction), an Account for the order's client_id
exists in storage afterwards; accounts are created lazily at processing
time, not pre-provisioned. -/
theorem account_exists_after_accepted_order (s : Storage) (o : TransactionOrder)
    (amount : Int) (t : Transaction)
    (hk : o.kind = TransactionKind.Deposit amount ∨ o.kind = TransactionKind.Withdrawal amount)
    (hok : (process_order s o).2 = Except.ok t) :
    ((process_order s o).1.get_account o.client_id).isSome = true := by
  rcases hk with hk | hk
  all_goals
    simp only [process_order, TransactionOrder.toTransaction, hk] at hok ⊢
  all_goals
    simp only [process_deposit, process_withdrawal] at hok ⊢
  all_goals
    split at hok
  · simp at hok
  case isFalse hdup =>
    split at hok
    · simp at hok
    case h_2 acc heq =>
      split at hok
      · simp at hok
      case h_2 s2 heq2 =>
        obtain ⟨-, hacc, -, -⟩ := Storage.store_transaction_ok _ _ _ heq2
        have hcid : acc.client_id =
            ((s.get_account o.client_id).getD (Account.new o.client_id)).client_id := by
          have h1 : ((((s.get_account o.client_id).getD
              (Account.new o.client_id)).deposit amount)).1 = acc := by rw [heq]
          rw [← h1, Account.deposit_fst_client_id]
        cases hga : s.get_account o.client_id with
        | none =>
          simp only [hga, Option.getD_none, Account.new] at hcid
          simp [hdup, hacc, Storage.store_account, Storage.get_account, hcid]
        | some b =>
          simp only [Storage.get_account] at hga
          simp only [Storage.get_account, hdup]
          simp [hacc, Storage.store_account]
          split <;> simp [hga]
  · simp at hok
  case isFalse hdup =>
    split at hok
    · simp at hok
    case h_2 acc heq =>
      split at hok
      · simp at hok
      case h_2 s2 heq2 =>
        obtain ⟨-, hacc, -, -⟩ := Storage.store_transaction_ok _ _ _ heq2
        have hcid : acc.client_id =
            ((s.get_account o.client_id).getD (Account.new o.client_id)).client_id := by
          have h1 : ((((s.get_account o.client_id).getD
              (Account.new o.client_id)).withdraw amount)).1 = acc := by rw [heq]
          rw [← h1, Account.withdraw_fst_client_id]
        cases hga : s.get_account o.client_id with
        | none =>
          simp only [hga, Option.getD_none, Account.new] at hcid
          simp [hdup, hacc, Storage.store_account, Storage.get_account, hcid]
        | some b =>
          simp only [Storage.get_account] at hga
          simp only [Storage.get_account, hdup]
          simp [hacc, Storage.store_account]
          split <;> simp [hga]

theorem account_exists_after_accepted_order_witness :
    ((process_order Storage.empty ⟨1, 1, TransactionKind.Deposit 100⟩).1.get_account 1).isSome
      = true :=
  account_exists_after_accepted_order Storage.empty ⟨1, 1, TransactionKind.Deposit 100⟩
    100 ⟨1, 1, TransactionKind.Deposit 100⟩ (Or.inl rfl) (by decide)

/-- Claim C9 (counterexample to the claim as stated): processing the first
Withdrawal order of a fresh client fails with InsufficientAvailableFunds
and stores no Account for that client, so an account does not exist after
every first deposit/withdrawal attempt. -/
theorem account_not_created_on_failed_first_withdrawal :
    (process_order Storage.empty ⟨1, 1, TransactionKind.Withdrawal 30⟩).2 =
      Except.error (ProcessError.account (AccountError.InsufficientAvailableFunds 0 30))
    ∧ (process_order Storage.empty ⟨1, 1, TransactionKind.Withdrawal 30⟩).1.get_account 1
        = none := by
  decide

/-- Claim C4: a Dispute(related_tx_id) order is rejected with
AlreadyDisputedTransaction when the id is already disputed; else with
RelatedTransactionNotFound when no stored transaction has that id; else
with RelatedTransactionNotDisputable when the stored transaction is not a
Deposit; otherwise Account.dispute(amount) is applied to the related
transaction's client account (whatever the order's own client_id is),
that account is persisted, the id is marked disputed, and no transaction
record is added. -/
theorem dispute_processing (s : Storage) (o : TransactionOrder) (rid : TxId)
    (hk : o.kind = TransactionKind.Dispute rid) :
    (s.disputed rid = true →
      process_order s o =
        (s, Except.error (ProcessError.order (TransactionError.AlreadyDisputedTransaction rid))))
    ∧ (s.disputed rid = false → s.get_transaction rid = none →
      process_order s o =
        (s, Except.error (ProcessError.order (TransactionError.RelatedTransactionNotFound rid))))
    ∧ (∀ rt, s.disputed rid = false → s.get_transaction rid = some rt →
        (∀ amount, rt.kind ≠ TransactionKind.Deposit amount) →
      process_order s o =
        (s, Except.error (ProcessError.order
          (TransactionError.RelatedTransactionNotDisputable rid))))
    ∧ (∀ rt amount acct, s.disputed rid = false → s.get_transaction rid = some rt →
        rt.kind = TransactionKind.Deposit amount → s.get_account rt.client_id = some acct →
      (process_order s o).2 = Except.ok o.toTransaction
      ∧ (process_order s o).1.get_account acct.client_id = some (acct.dispute amount).1
      ∧ (process_order s o).1.disputed rid = true
      ∧ (∀ i, (process_order s o).1.get_transaction i = s.get_transaction i)) := by
  refine ⟨?_, ?_, ?_, ?_⟩
  · intro hd
    simp [process_order, TransactionOrder.toTransaction, hk, process_dispute, hd]
  · intro hd hnone
    simp [process_order, TransactionOrder.toTransaction, hk, process_dispute, hd, hnone]
  · intro rt hd hsome hnk
    simp only [process_order, TransactionOrder.toTransaction, hk, process_dispute, hd,
      Bool.false_eq_true, if_false, hsome]
  · intro rt amount acct hd hsome hkind hacct
    have hsome' : s.transactions rid = some rt := hsome
    have hacct' : s.accounts rt.client_id = some acct := hacct
    have hred : process_order s o =
        ({ s.store_account (acct.dispute amount).1 with
            disputed := fun j => if j = rid then true else s.disputed j },
          Except.ok o.toTransaction) := by
      simp only [process_order, TransactionOrder.toTransaction, hk]
      simp only [process_dispute, hd, Bool.false_eq_true, if_false, Storage.get_transaction,
        Storage.get_account, hsome', hkind, hacct']
      simp [Account.dispute, Account.update_total, Storage.set_disputed,
        Storage.store_account, hsome']
    refine ⟨by rw [hred], ?_, ?_, ?_⟩
    · rw [hred]
      simp [Storage.get_account, Storage.store_account, Account.dispute, Account.update_total]
    · rw [hred]
      simp
    · intro i
      rw [hred]
      simp [Storage.get_transaction, Storage.store_account]

theorem dispute_processing_witness :
    (process_order oneDepositState ⟨3, 2, TransactionKind.Dispute 1⟩).2 =
      Except.ok (TransactionOrder.toTransaction ⟨3, 2, TransactionKind.Dispute 1⟩)
    ∧ (process_order oneDepositState ⟨3, 2, TransactionKind.Dispute 1⟩).1.get_account
        (Account.mk 1 100 0 100 false).client_id =
        some ((Account.mk 1 100 0 100 false).dispute 100).1
    ∧ (process_order oneDepositState ⟨3, 2, TransactionKind.Dispute 1⟩).1.disputed 1 = true
    ∧ (∀ i, (process_order oneDepositState ⟨3, 2, TransactionKind.Dispute 1⟩).1.get_transaction i
        = oneDepositState.get_transaction i) :=
  (dispute_processing oneDepositState ⟨3, 2, TransactionKind.Dispute 1⟩ 1 rfl).2.2.2
    ⟨1, 1, TransactionKind.Deposit 100⟩ 100 (Account.mk 1 100 0 100 false)
    (by decide) (by decide) (by decide) (by decide)

/-- Claim C7: a Resolve or ChargeBack order whose related transaction is not
currently disputed — in particular whenever no transaction with that id
exists at all (in any storage satisfying the reachable-state invariant) —
fails with NonDisputedTransaction and changes no stored state. -/
theorem resolve_chargeback_non_disputed (s : Storage) (o : TransactionOrder) (rid : TxId)
    (hk : o.kind = TransactionKind.Resolve rid ∨ o.kind = TransactionKind.ChargeBack rid) :
    (s.disputed rid = false →
      process_order s o =
        (s, Except.error (ProcessError.order (TransactionError.NonDisputedTransaction rid))))
    ∧ (StorageInv s → s.get_transaction rid = none →
      process_order s o =
        (s, Except.error (ProcessError.order (TransactionError.NonDisputedTransaction rid)))) := by
  have hmain : s.disputed rid = false → process_order s o =
      (s, Except.error (ProcessError.order (TransactionError.NonDisputedTransaction rid))) := by
    intro hd
    rcases hk with hk | hk <;>
      simp [process_order, TransactionOrder.toTransaction, hk, process_resolve,
        process_chargeback, hd]
  refine ⟨hmain, fun hinv hnone => hmain ?_⟩
  cases hdb : s.disputed rid
  · rfl
  · obtain ⟨t, amount, ht, -⟩ := hinv.1 rid hdb
    rw [hnone] at ht
    exact Option.noConfusion ht

theorem resolve_chargeback_non_disputed_witness :
    process_order oneDepositState ⟨2, 1, TransactionKind.Resolve 1⟩ =
      (oneDepositState,
        Except.error (ProcessError.order (TransactionError.NonDisputedTransaction 1))) :=
  (resolve_chargeback_non_disputed oneDepositState ⟨2, 1, TransactionKind.Resolve 1⟩ 1
    (Or.inl rfl)).1 (by decide)

theorem storageInv_empty : StorageInv Storage.empty := by
  refine ⟨fun tid hd => ?_, fun tid t ht => ?_, fun c a ha => ?_⟩
  · simp [Storage.empty] at hd
  · simp [Storage.empty, Storage.get_transaction] at ht
  · simp [Storage.empty, Storage.get_account] at ha

theorem StorageInv.store_account (s : Storage) (acc : Account) (h : StorageInv s) :
    StorageInv (s.store_account acc) := by
  obtain ⟨h1, h2, h3⟩ := h
  refine ⟨fun tid hd => h1 tid hd, ?_, ?_⟩
  · intro tid tr htr
    have hbase := h2 tid tr htr
    show ((if tr.client_id = acc.client_id then some acc
      else s.get_account tr.client_id).isSome = true)
    split
    · rfl
    · exact hbase
  · intro c a ha
    rw [Storage.store_account_get_account] at ha
    split at ha
    case isTrue hc =>
      cases ha
      exact hc.symm
    case isFalse hc => exact h3 c a ha

theorem StorageInv.store_transaction_fresh (s s2 : Storage) (t : Transaction)
    (h : StorageInv s) (hacc : (s.get_account t.client_id).isSome = true)
    (hok : s.store_transaction t = Except.ok s2) : StorageInv s2 := by
  obtain ⟨hfresh, haccs, hdisp, htx⟩ := Storage.store_transaction_ok s s2 t hok
  obtain ⟨h1, h2, h3⟩ := h
  refine ⟨?_, ?_, ?_⟩
  · intro tid hd
    rw [show s2.disputed tid = s.disputed tid from congrFun hdisp tid] at hd
    obtain ⟨tr, amount, htr, hkind⟩ := h1 tid hd
    refine ⟨tr, amount, ?_, hkind⟩
    rw [htx tid]
    split
    case isTrue hid =>
      rw [hid] at htr
      rw [htr] at hfresh
      exact Option.noConfusion hfresh
    case isFalse hid => exact htr
  · intro tid tr htr2
    rw [htx tid] at htr2
    split at htr2
    case isTrue hid =>
      cases htr2
      show (s2.accounts t.client_id).isSome = true
      rw [congrFun haccs t.client_id]
      exact hacc
    case isFalse hid =>
      have hbase := h2 tid tr htr2
      show (s2.accounts tr.client_id).isSome = true
      rw [congrFun haccs tr.client_id]
      exact hbase
  · intro c a ha
    refine h3 c a ?_
    show s.accounts c = some a
    rw [← congrFun haccs c]
    exact ha

theorem StorageInv.set_disputed_true (s : Storage) (rid : TxId) (rt : Transaction)
    (amount : Int) (h : StorageInv s) (hsome : s.get_transaction rid = some rt)
    (hkind : rt.kind = TransactionKind.Deposit amount) :
    StorageInv { s with disputed := fun j => if j = rid then true else s.disputed j } := by
  obtain ⟨h1, h2, h3⟩ := h
  refine ⟨?_, fun tid tr htr => h2 tid tr htr, fun c a ha => h3 c a ha⟩
  intro tid hd
  show ∃ tr amount, s.get_transaction tid = some tr ∧ tr.kind = TransactionKind.Deposit amount
  by_cases hid : tid = rid
  · subst hid
    exact ⟨rt, amount, hsome, hkind⟩
  · refine h1 tid ?_
    simpa [hid] using hd

theorem StorageInv.set_disputed_false (s : Storage) (rid : TxId) (h : StorageInv s) :
    StorageInv { s with disputed := fun j => if j = rid then false else s.disputed j } := by
  obtain ⟨h1, h2, h3⟩ := h
  refine ⟨?_, fun tid tr htr => h2 tid tr htr, fun c a ha => h3 c a ha⟩
  intro tid hd
  show ∃ tr amount, s.get_transaction tid = some tr ∧ tr.kind = TransactionKind.Deposit amount
  by_cases hid : tid = rid
  · subst hid
    simp at hd
  · refine h1 tid ?_
    simpa [hid] using hd

theorem process_deposit_inv (s : Storage) (t : Transaction) (amount : Int)
    (h : StorageInv s) : StorageInv (process_deposit s t amount).1 := by
  simp only [process_deposit]
  split
  · exact h
  next hdup =>
    split
    · exact h
    next acc heq =>
      have hcid : acc.client_id = t.client_id := by
        have h1' : (((s.get_account t.client_id).getD
            (Account.new t.client_id)).deposit amount).1 = acc := by rw [heq]
        rw [← h1', Account.deposit_fst_client_id]
        cases hga : s.get_account t.client_id with
        | none => simp [Account.new]
        | some b => simpa using h.2.2 t.client_id b hga
      have hinv1 : StorageInv (s.store_account acc) := StorageInv.store_account s acc h
      have hacc1 : ((s.store_account acc).get_account t.client_id).isSome = true := by
        rw [Storage.store_account_get_account, hcid]
        simp
      split
      · exact hinv1
      next s2 heq2 => exact StorageInv.store_transaction_fresh _ _ _ hinv1 hacc1 heq2

theorem process_withdrawal_inv (s : Storage) (t : Transaction) (amount : Int)
    (h : StorageInv s) : StorageInv (process_withdrawal s t amount).1 := by
  simp only [process_withdrawal]
  split
  · exact h
  next hdup =>
    split
    · exact h
    next acc heq =>
      have hcid : acc.client_id = t.client_id := by
        have h1' : (((s.get_account t.client_id).getD
            (Account.new t.client_id)).withdraw amount).1 = acc := by rw [heq]
        rw [← h1', Account.withdraw_fst_client_id]
        cases hga : s.get_account t.client_id with
        | none => simp [Account.new]
        | some b => simpa using h.2.2 t.client_id b hga
      have hinv1 : StorageInv (s.store_account acc) := StorageInv.store_account s acc h
      have hacc1 : ((s.store_account acc).get_account t.client_id).isSome = true := by
        rw [Storage.store_account_get_account, hcid]
        simp
      split
      · exact hinv1
      next s2 heq2 => exact StorageInv.store_transaction_fresh _ _ _ hinv1 hacc1 heq2

theorem process_dispute_inv (s : Storage) (t : Transaction) (rid : TxId)
    (h : StorageInv s) : StorageInv (process_dispute s t rid).1 := by
  simp only [process_dispute]
  split
  · exact h
  next hd =>
    split
    next rt hsome =>
      split
      next amount hkind =>
        split
        next acct hacct =>
          split
          · exact h
          next acc heq =>
            split
            · exact StorageInv.store_account s _ h
            next s2 heq2 =>
              have hsome1 : ((s.store_account acc).get_transaction rid).isSome = true := by
                show (s.get_transaction rid).isSome = true
                rw [hsome]
                rfl
              rw [Storage.set_disputed_of_isSome _ _ _ hsome1] at heq2
              cases heq2
              exact StorageInv.set_disputed_true _ rid rt amount
                (StorageInv.store_account s _ h) hsome hkind
        · exact h
      · exact h
    · exact h

theorem process_resolve_inv (s : Storage) (t : Transaction) (rid : TxId)
    (h : StorageInv s) : StorageInv (process_resolve s t rid).1 := by
  simp only [process_resolve]
  split
  next hd =>
    split
    · exact h
    next rt hsome =>
      split
      next amount hkind =>
        split
        · exact h
        next acct hacct =>
          split
          · exact h
          next acc heq =>
            split
            · exact StorageInv.store_account s _ h
            next s2 heq2 =>
              have hsome1 : ((s.store_account acc).get_transaction rid).isSome = true := by
                show (s.get_transaction rid).isSome = true
                rw [hsome]
                rfl
              rw [Storage.set_disputed_of_isSome _ _ _ hsome1] at heq2
              cases heq2
              exact StorageInv.set_disputed_false _ rid (StorageInv.store_account s _ h)
      · exact h
  · exact h

theorem process_chargeback_inv (s : Storage) (t : Transaction) (rid : TxId)
    (h : StorageInv s) : StorageInv (process_chargeback s t rid).1 := by
  simp only [process_chargeback]
  split
  next hd =>
    split
    · exact h
    next rt hsome =>
      split
      next amount hkind =>
        split
        · exact h
        next acct hacct =>
          split
          · exact h
          next acc heq =>
            split
            · exact StorageInv.store_account s _ h
            next s2 heq2 =>
              have hsome1 : ((s.store_account acc).get_transaction rid).isSome = true := by
                show (s.get_transaction rid).isSome = true
                rw [hsome]
                rfl
              rw [Storage.set_disputed_of_isSome _ _ _ hsome1] at heq2
              cases heq2
              exact StorageInv.set_disputed_false _ rid (StorageInv.store_account s _ h)
      · exact h
  · exact h

theorem process_deposit_no_unwrap (s : Storage) (t : Transaction) (amount : Int)
    (msg : String) :
    (process_deposit s t amount).2 ≠ Except.error (ProcessError.unwrapFailure msg) := by
  simp only [process_deposit]
  split
  · simp
  · split
    · simp
    · split <;> simp

theorem process_withdrawal_no_unwrap (s : Storage) (t : Transaction) (amount : Int)
    (msg : String) :
    (process_withdrawal s t amount).2 ≠ Except.error (ProcessError.unwrapFailure msg) := by
  simp only [process_withdrawal]
  split
  · simp
  · split
    · simp
    · split <;> simp

theorem process_dispute_no_unwrap (s : Storage) (t : Transaction) (rid : TxId)
    (msg : String) (h : StorageInv s) :
    (process_dispute s t rid).2 ≠ Except.error (ProcessError.unwrapFailure msg) := by
  simp only [process_dispute]
  split
  · simp
  next hd =>
    split
    next rt hsome =>
      split
      next amount hkind =>
        split
        next acct hacct =>
          split
          · simp
          · split <;> simp
        next hacct =>
          have hs := h.2.1 rid rt hsome
          rw [hacct] at hs
          simp at hs
      · simp
    · simp

theorem process_resolve_no_unwrap (s : Storage) (t : Transaction) (rid : TxId)
    (msg : String) (h : StorageInv s) :
    (process_resolve s t rid).2 ≠ Except.error (ProcessError.unwrapFailure msg) := by
  simp only [process_resolve]
  split
  next hd =>
    split
    next hnone =>
      obtain ⟨tr, amount, htr, -⟩ := h.1 rid hd
      rw [hnone] at htr
      exact absurd htr (by simp)
    next rt hsome =>
      split
      next amount hkind =>
        split
        next hnone2 =>
          have hs := h.2.1 rid rt hsome
          rw [hnone2] at hs
          simp at hs
        next acct hacct =>
          split
          · simp
          · split <;> simp
      · simp
  · simp

theorem process_chargeback_no_unwrap (s : Storage) (t : Transaction) (rid : TxId)
    (msg : String) (h : StorageInv s) :
    (process_chargeback s t rid).2 ≠ Except.error (ProcessError.unwrapFailure msg) := by
  simp only [process_chargeback]
  split
  next hd =>
    split
    next hnone =>
      obtain ⟨tr, amount, htr, -⟩ := h.1 rid hd
      rw [hnone] at htr
      exact absurd htr (by simp)
    next rt hsome =>
      split
      next amount hkind =>
        split
        next hnone2 =>
          have hs := h.2.1 rid rt hsome
          rw [hnone2] at hs
          simp at hs
        next acct hacct =>
          split
          · simp
          · split <;> simp
      · simp
  · simp

/-- Claim C10: the manager's storage satisfies a reachable-state invariant —
it holds of the empty storage and is preserved by process_order — under
which every disputed TxId refers to a stored Deposit-kind transaction whose
client has a stored account; consequently the transaction and account
lookups of process_resolve and process_chargeback performed after the
disputed check never fail (the unwrap() calls cannot panic, embedded here
as: process_order never returns an unwrapFailure outcome), and the silent
no-effect branch for a disputed non-Deposit transaction is unreachable. -/
theorem storage_reachable_invariant :
    StorageInv Storage.empty
    ∧ (∀ s o, StorageInv s → StorageInv (process_order s o).1)
    ∧ (∀ s rid, StorageInv s → s.disputed rid = true →
        ∃ rt amount, s.get_transaction rid = some rt
          ∧ rt.kind = TransactionKind.Deposit amount
          ∧ (s.get_account rt.client_id).isSome = true)
    ∧ (∀ s o msg, StorageInv s →
        (process_order s o).2 ≠ Except.error (ProcessError.unwrapFailure msg)) := by
  refine ⟨storageInv_empty, ?_, ?_, ?_⟩
  · intro s o h
    simp only [process_order, TransactionOrder.toTransaction]
    cases hk : o.kind <;> simp only []
    · exact process_deposit_inv _ _ _ h
    · exact process_withdrawal_inv _ _ _ h
    · exact process_dispute_inv _ _ _ h
    · exact process_resolve_inv _ _ _ h
    · exact process_chargeback_inv _ _ _ h
  · intro s rid h hd
    obtain ⟨rt, amount, htr, hkind⟩ := h.1 rid hd
    exact ⟨rt, amount, htr, hkind, h.2.1 rid rt htr⟩
  · intro s o msg h
    simp only [process_order, TransactionOrder.toTransaction]
    cases hk : o.kind <;> simp only []
    · exact process_deposit_no_unwrap _ _ _ _
    · exact process_withdrawal_no_unwrap _ _ _ _
    · exact process_dispute_no_unwrap _ _ _ _ h
    · exact process_resolve_no_unwrap _ _ _ _ h
    · exact process_chargeback_no_unwrap _ _ _ _ h

theorem storage_reachable_invariant_witness :
    StorageInv (process_order Storage.empty ⟨1, 1, TransactionKind.Deposit 100⟩).1 :=
  storage_reachable_invariant.2.1 Storage.empty ⟨1, 1, TransactionKind.Deposit 100⟩
    storageInv_empty

end CsvReader
